import Mathlib

/-!
Verification of the technical-indicator and signal-classification pipeline of
the copenhagenbot repository (stock_screener.py, signal_generator.py,
risk_manager.py, pattern_detector.py, modes/*.py, signal_watcher.py).

Numeric values are modelled as rationals (ℚ).  Pandas NaN cells are modelled
with `Option`; a rolling indicator therefore has type `List (Option ℚ)`.
Python's `round` builtin (round-half-to-even) is modelled by `pyRound`.
-/

/-- Python's builtin `round` to an integer: round half to even. -/
def pyRound (q : ℚ) : ℤ :=
  if q - ⌊q⌋ = 1/2 then (if 2 ∣ ⌊q⌋ then ⌊q⌋ else ⌊q⌋ + 1) else round q

/-- Python's `round(x, 2)`: round to two decimal places, half to even. -/
def pyRound2 (q : ℚ) : ℚ := (pyRound (q * 100) : ℚ) / 100

/-- Arithmetic mean of a list (pandas `Series.mean`); 0 on the empty list,
which is never hit by guarded call sites. -/
def meanQ (xs : List ℚ) : ℚ := xs.sum / (xs.length : ℚ)

/-- Lookup in a Python dict modelled as an association list
(`d.get(k)` — keys are unique in a dict, `find?` takes the first binding). -/
def dictGet {α : Type} (k : String) (d : List (String × α)) : Option α :=
  (d.find? (fun p => p.1 = k)).map (·.2)

/-!
### Rolling mean (`Series.rolling(window=w).mean()`)

`rollingMeanAux` carries the reversed window of the at-most-`w` most recent
observations, exactly as pandas' sliding window does; a cell is NaN (`none`)
until `w` observations have been seen.
-/

def rollingMeanAux (w : ℕ) : List ℚ → List ℚ → List (Option ℚ)
  | _, [] => []
  | win, x :: xs =>
    let win2 := (x :: win).take w
    (if win2.length < w then none else some (win2.sum / (w : ℚ)))
      :: rollingMeanAux w win2 xs

/-- `closes.rolling(window=w).mean()` as used throughout the repository
(`calculate_ma` in stock_screener.py and the MA5/MA20 columns recomputed in
signal_generator.py / risk_manager.py). -/
def rollingMean (w : ℕ) (xs : List ℚ) : List (Option ℚ) := rollingMeanAux w [] xs

/-- Naive recomputation of the trailing-`w` mean at bar `i` (0-based), written
directly from the spec's words: undefined for the first `w − 1` bars, then the
arithmetic mean of exactly the trailing `w` closes. -/
def naiveMA (w : ℕ) (xs : List ℚ) (i : ℕ) : Option ℚ :=
  if i + 1 < w then none
  else some ((((xs.take (i + 1)).drop (i + 1 - w)).sum) / (w : ℚ))

theorem rollingMeanAux_length (w : ℕ) :
    ∀ (ys win : List ℚ), (rollingMeanAux w win ys).length = ys.length := by
  intro ys
  induction ys with
  | nil => intro win; rfl
  | cons x xs ih =>
    intro win
    simp [rollingMeanAux, ih]

theorem take_cons_take (w : ℕ) (hw : 1 ≤ w) (x : ℚ) (l : List ℚ) :
    (x :: l.take w).take w = (x :: l).take w := by
  obtain ⟨w', rfl⟩ : ∃ w', w = w' + 1 := ⟨w - 1, by omega⟩
  simp [List.take_take]

theorem sum_reverse_take (L : List ℚ) (w : ℕ) (hw : w ≤ L.length) :
    (L.reverse.take w).sum = (L.drop (L.length - w)).sum := by
  have h : L.reverse.take w = (L.drop (L.length - w)).reverse := by
    rw [List.reverse_drop]
    congr 1
    omega
  rw [h, List.sum_reverse]

theorem take_append_cons (pre : List ℚ) (x : ℚ) (t : List ℚ) :
    (pre ++ x :: t).take (pre.length + 1) = pre ++ [x] := by
  rw [List.take_append]
  simp

theorem rollingMeanAux_get? (w : ℕ) (hw : 1 ≤ w) :
    ∀ (ys pre : List ℚ) (j : ℕ), j < ys.length →
      (rollingMeanAux w (pre.reverse.take w) ys).get? j
        = some (naiveMA w (pre ++ ys) (pre.length + j)) := by
  intro ys
  induction ys with
  | nil => intro pre j hj; simp at hj
  | cons x xs ih =>
    intro pre j hj
    have hwin2 : ((x :: pre.reverse.take w).take w)
        = ((pre ++ [x]).reverse).take w := by
      rw [take_cons_take w hw, List.reverse_append]
      rfl
    match j with
    | 0 =>
      simp only [rollingMeanAux, List.get?]
      rw [hwin2]
      unfold naiveMA
      rw [take_append_cons pre x xs]
      have hlen : ((List.take w ((pre ++ [x]).reverse))).length
          = min (pre.length + 1) w := by
        simp
        omega
      rw [hlen]
      by_cases hA : pre.length + 1 < w
      · rw [if_pos (show min (pre.length + 1) w < w by omega),
          if_pos (show pre.length + 0 + 1 < w by omega)]
      · rw [if_neg (show ¬ min (pre.length + 1) w < w by omega),
          if_neg (show ¬ pre.length + 0 + 1 < w by omega)]
        have hle : w ≤ (pre ++ [x]).length := by simp; omega
        rw [sum_reverse_take (pre ++ [x]) w hle]
        have hidx : (pre ++ [x]).length - w = pre.length + 0 + 1 - w := by
          simp only [List.length_append, List.length_cons, List.length_nil]
        rw [hidx]
    | Nat.succ k =>
      simp only [rollingMeanAux, List.get?]
      rw [hwin2]
      have := ih (pre ++ [x]) k (by simpa using Nat.lt_of_succ_lt_succ hj)
      rw [this]
      congr 2
      · simp
      · simp; omega

theorem rollingMean_get? (w : ℕ) (hw : 1 ≤ w) (xs : List ℚ) (i : ℕ)
    (hi : i < xs.length) :
    (rollingMean w xs).get? i = some (naiveMA w xs i) := by
  have := rollingMeanAux_get? w hw xs [] i (by simpa using hi)
  simpa [rollingMean] using this

/-!
### Indicator engine (stock_screener.py lines 369–418)

`diffs` is `Series.diff()` (first cell NaN), `ewm` is
`Series.ewm(alpha, adjust=False).mean()` (recursive exponential smoothing
seeded with the first observation), `pctChanges` is
`Series.pct_change().mul(100).fillna(0)`.

Non-finite float results are modelled as follows: the elementwise
`rs = avg_gain / avg_loss` with `avg_loss = 0` gives `inf` (RSI 100) when
`avg_gain > 0` and NaN (`none`) when `avg_gain = 0`, mirroring IEEE
semantics; `pct_change` at a zero previous close (never a real price) uses
the rational convention `x / 0 = 0`.
-/

def diffs (xs : List ℚ) : List (Option ℚ) :=
  match xs with
  | [] => []
  | _ :: _ => none :: (xs.zip xs.tail).map (fun p => some (p.2 - p.1))

/-- `delta.where(delta > 0, 0)`: the positive part of each diff, with the
leading NaN mapped to 0 (`NaN > 0` is false in pandas). -/
def gainsOf (xs : List ℚ) : List ℚ :=
  (diffs xs).map (fun d => match d with
    | none => 0
    | some v => if v > 0 then v else 0)

/-- `-delta.where(delta < 0, 0)`: minus the negative part of each diff. -/
def lossesOf (xs : List ℚ) : List ℚ :=
  (diffs xs).map (fun d => match d with
    | none => 0
    | some v => if v < 0 then -v else 0)

def ewmAux (a : ℚ) : ℚ → List ℚ → List ℚ
  | _, [] => []
  | prev, x :: xs =>
    let y := (1 - a) * prev + a * x
    y :: ewmAux a y xs

/-- `Series.ewm(alpha=a, adjust=False).mean()`. -/
def ewm (a : ℚ) : List ℚ → List ℚ
  | [] => []
  | x :: xs => x :: ewmAux a x xs

/-- One RSI cell from the smoothed average gain and loss:
`100 - 100 / (1 + avg_gain / avg_loss)` with IEEE division semantics. -/
def rsiPoint (g l : ℚ) : Option ℚ :=
  if l = 0 then (if g = 0 then none else some 100)
  else some (100 - 100 / (1 + g / l))

/-- `calculate_rsi` (stock_screener.py lines 376–385) as a series. -/
def rsiSeries (xs : List ℚ) : List (Option ℚ) :=
  List.zipWith rsiPoint (ewm (1/14) (gainsOf xs)) (ewm (1/14) (lossesOf xs))

/-- `close.pct_change() * 100` followed by `fillna(0)`. -/
def pctChanges (xs : List ℚ) : List ℚ :=
  match xs with
  | [] => []
  | _ :: _ => 0 :: (xs.zip xs.tail).map (fun p => (p.2 - p.1) / p.1 * 100)

/-- MACD line of `calculate_macd` (stock_screener.py lines 388–418):
`ewm(span=12)` minus `ewm(span=26)` of the percent-change series
(`alpha = 2 / (span + 1)`). -/
def macdLine (xs : List ℚ) : List ℚ :=
  List.zipWith (fun a b => a - b)
    (ewm (2/13) (pctChanges xs)) (ewm (2/27) (pctChanges xs))

/-- Signal line: `macd.ewm(span=9, adjust=False).mean()`. -/
def macdSignalLine (xs : List ℚ) : List ℚ := ewm (2/10) (macdLine xs)

/-- Histogram: `MACD - Signal` (per the spec's definition; the source keeps
only the MACD and Signal columns). -/
def macdHistogram (xs : List ℚ) : List ℚ :=
  List.zipWith (fun a b => a - b) (macdLine xs) (macdSignalLine xs)

/-- A price DataFrame: the immutable close column plus the indicator columns
the engine appends (absent columns are `none`). -/
structure Frame where
  close : List ℚ
  MA5 : Option (List (Option ℚ))
  MA20 : Option (List (Option ℚ))
  RSI : Option (List (Option ℚ))
  MACD : Option (List ℚ)
  MACD_Signal : Option (List ℚ)

/-- `calculate_ma(df)` with the default `periods=[5, 20]`. -/
def calculate_ma (df : Frame) : Frame :=
  { df with MA5 := some (rollingMean 5 df.close),
            MA20 := some (rollingMean 20 df.close) }

/-- `calculate_rsi(df)` with the default `period=14`. -/
def calculate_rsi (df : Frame) : Frame :=
  { df with RSI := some (rsiSeries df.close) }

/-- `calculate_macd(df)`. -/
def calculate_macd (df : Frame) : Frame :=
  { df with MACD := some (macdLine df.close),
            MACD_Signal := some (macdSignalLine df.close) }

/-- The indicator engine: moving averages, then RSI, then MACD. -/
def applyIndicators (df : Frame) : Frame :=
  calculate_macd (calculate_rsi (calculate_ma df))

/-!
### signal_generator.py

`price_df` is modelled by its close column (the function reads only `종가`
and the MA5/MA20 columns, which it computes itself as `rolling(5/20).mean()`
when absent).  `pattern_info` is modelled by its `pattern_type` entry
(`pattern_info.get('pattern_type', '불명확')`), an `Option String`.
-/

/-- Last value of the MA-`w` column with the NaN fallback used by the source
(`... if pd.notna(...) else fallback`). -/
def lastMA (w : ℕ) (closes : List ℚ) (fallback : ℚ) : ℚ :=
  (((rollingMean w closes).getLast?).join).getD fallback

/-- `estimate_days_to_price` (signal_generator.py lines 123–159). -/
def estimate_days_to_price (closes : List ℚ) (target_price current_price : ℚ) :
    ℕ :=
  if closes.length < 5 then 3
  else
    let recent := closes.drop (closes.length - 10)
    let price_changes := (recent.zip recent.tail).map
      (fun p => (p.2 - p.1) / p.1)
    if price_changes.length = 0 then 3
    else
      let avg0 := |meanQ price_changes|
      let avg_daily_change := if avg0 < 3/1000 then 3/1000 else avg0
      let price_diff_pct := |(target_price - current_price) / current_price|
      if price_diff_pct = 0 then 0
      else
        let estimated_days := (⌊price_diff_pct / avg_daily_change⌋).toNat
        min 30 (max 1 estimated_days)

structure BuyEntry where
  price : ℤ
  days : ℕ
  reason : String

structure BuyResult where
  buy_1 : Option BuyEntry
  buy_2 : Option BuyEntry
  strategy : String

/-- `generate_buy_signals` (signal_generator.py lines 13–120). -/
def generate_buy_signals (price_df : Option (List ℚ))
    (pattern_type_field : Option String) (current_price : ℚ) :
    Option BuyResult :=
  match price_df with
  | none => none
  | some closes =>
    if closes.length = 0 then none
    else
      let ma5 := lastMA 5 closes current_price
      let ma20 := lastMA 20 closes current_price
      let pattern_type := pattern_type_field.getD "불명확"
      if pattern_type = "물량_털기" then
        let buy_1_price := ma5 * (99/100)
        let buy_2_price := ma20 * (985/1000)
        some ⟨some ⟨pyRound buy_1_price,
                estimate_days_to_price closes buy_1_price current_price,
                "MA5 근처 눌림 구간 (1차 매수)"⟩,
              some ⟨pyRound buy_2_price,
                estimate_days_to_price closes buy_2_price current_price,
                "MA20 근처 눌림 구간 (2차 매수)"⟩,
              "물량 털기 패턴: 단기 조정 후 상승 가능성이 높으므로 눌림 구간에서 매수 추천"⟩
      else if pattern_type = "상승_신호" then
        let buy_1_price := current_price * (98/100)
        let buy_2_price := ma5 * (97/100)
        some ⟨some ⟨pyRound buy_1_price, 1, "현재가 근처 (1차 매수)"⟩,
              some ⟨pyRound buy_2_price,
                estimate_days_to_price closes buy_2_price current_price,
                "MA5 근처 (2차 매수)"⟩,
              "상승 신호: 외국인과 기관이 동시 매수 중이므로 적극 매수 추천"⟩
      else if pattern_type = "진짜_이탈" then
        some ⟨none, none, "진짜 이탈 패턴: 매수 비추천, 관망 권장"⟩
      else
        let buy_1_price := ma20 * (97/100)
        let buy_2_price := ma20 * (95/100)
        some ⟨some ⟨pyRound buy_1_price,
                estimate_days_to_price closes buy_1_price current_price,
                "MA20 근처 보수적 매수 (1차)"⟩,
              some ⟨pyRound buy_2_price,
                estimate_days_to_price closes buy_2_price current_price,
                "MA20 아래 보수적 매수 (2차)"⟩,
              "불명확한 패턴: 보수적 접근 권장"⟩

/-!
### risk_manager.py
-/

structure StopLossResult where
  stop_loss : ℤ
  loss_pct : ℚ
  reason : String

/-- `calculate_stop_loss` (risk_manager.py lines 11–59).  The MA20 column is
`rolling(20).mean()` of the closes and falls back to `buy_price` when NaN. -/
def calculate_stop_loss (price_df : Option (List ℚ)) (buy_price : ℚ)
    (pattern_type_field : Option String) : Option StopLossResult :=
  match price_df with
  | none => none
  | some closes =>
    if closes.length = 0 then none
    else
      let ma20 := lastMA 20 closes buy_price
      let pattern_type := pattern_type_field.getD "불명확"
      let sl :=
        if pattern_type = "물량_털기" ∨ pattern_type = "상승_신호" then
          ma20 * (97/100)
        else if pattern_type = "진짜_이탈" then buy_price * (95/100)
        else min (ma20 * (97/100)) (buy_price * (97/100))
      let reason :=
        if pattern_type = "물량_털기" ∨ pattern_type = "상승_신호" then
          "MA20 이탈 시 손절 (3% 하락)"
        else if pattern_type = "진짜_이탈" then
          "하락 패턴이므로 빠른 손절 (5% 하락)"
        else "보수적 손절 (3% 하락 또는 MA20 이탈)"
      let loss_pct := (sl - buy_price) / buy_price * 100
      some ⟨pyRound sl, pyRound2 loss_pct, reason⟩

/-!
### pattern_detector.py

An investor-flow row carries the `외국인_순매수` (foreign net buy),
`기관_순매수` (institution net buy) and `거래량` (volume) columns.  Trends and
pattern labels are the literal strings of the source.
-/

structure InvestorRow where
  foreign_net : ℚ
  institution_net : ℚ
  volume : ℚ
deriving DecidableEq

/-- `'매수' if avg > 0 else ('매도' if avg < 0 else '중립')`. -/
def trendOf (avg : ℚ) : String :=
  if avg > 0 then "매수" else if avg < 0 then "매도" else "중립"

/-- Volume trend over the recent window (pattern_detector.py lines 53–62):
percent change of the last bar over the previous bar; a zero previous volume
follows IEEE float division (`+inf` → '증가', `-inf` → '감소', NaN → '유지'). -/
def volumeTrendOf (recent : List InvestorRow) : String :=
  if recent.length ≥ 2 then
    match recent.getLast?, recent.dropLast.getLast? with
    | some last, some prev =>
      if prev.volume = 0 then
        (if last.volume > 0 then "증가"
         else if last.volume < 0 then "감소" else "유지")
      else
        let volume_change := (last.volume - prev.volume) / prev.volume * 100
        if volume_change > 10 then "증가"
        else if volume_change < -10 then "감소" else "유지"
    | _, _ => "유지"
  else "유지"

/-- Price trend vs MA20 (pattern_detector.py lines 65–70): `None` unless the
price frame has at least 20 rows and a non-NaN MA20 (the MA20 column is
`rolling(20).mean()` of the closes, computed by the callers). -/
def priceTrendOf (price_df : Option (List ℚ)) : Option String :=
  match price_df with
  | none => none
  | some closes =>
    if closes.length ≥ 20 then
      match closes.getLast?, ((rollingMean 20 closes).getLast?).join with
      | some current_price, some ma20 =>
        some (if current_price > ma20 then "상승" else "하락")
      | _, _ => none
    else none

/-- The decision table of pattern_detector.py lines 78–121:
(pattern_type, confidence, reason). -/
def patternDecision (foreign_trend institution_trend volume_trend : String)
    (price_trend : Option String) : String × ℚ × String :=
  if foreign_trend = "매도" ∧ institution_trend = "매수" ∧
      (volume_trend = "유지" ∨ volume_trend = "증가") ∧
      price_trend = some "상승" then
    ("물량_털기", 75,
      "외국인 매도 중이지만 기관이 매수하고 있고, 거래량이 " ++ volume_trend
        ++ "하며 가격이 20일선 위에 있어 물량 털기 가능성이 높습니다.")
  else if foreign_trend = "매도" ∧ institution_trend = "매도" ∧
      volume_trend = "감소" then
    ("진짜_이탈", 80,
      "외국인과 기관이 모두 매도하고 있고, 거래량이 감소하여 진짜 이탈 가능성이 높습니다.")
  else if foreign_trend = "매수" ∧ institution_trend = "매수" then
    ("상승_신호", 85, "외국인과 기관이 동시에 매수하고 있어 상승 신호입니다.")
  else if foreign_trend = "매도" ∧
      (institution_trend = "매수" ∨ institution_trend = "중립") then
    (if volume_trend = "유지" ∧ price_trend = some "상승" then
      ("물량_털기", 65,
        "외국인만 매도 중이지만 기관은 매수/중립이고, 거래량과 가격이 유지되어 물량 털기 가능성이 있습니다.")
     else
      ("불명확", 50, "외국인 매도 중이지만 기관은 매수/중립입니다. 추가 관찰이 필요합니다."))
  else if institution_trend = "매도" ∧
      (foreign_trend = "매수" ∨ foreign_trend = "중립") then
    ("불명확", 55, "기관만 매도 중입니다. 외국인 동향을 주시하세요.")
  else ("불명확", 50, "명확한 패턴이 감지되지 않았습니다.")

structure PatternResult where
  foreign_trend : Option String
  institution_trend : Option String
  foreign_avg : Option ℚ
  institution_avg : Option ℚ
  volume_trend : Option String
  pattern_type : String
  confidence : ℚ
  reason : String
  price_trend : Option String
  data_available : Bool

/-- `analyze_investor_pattern` (pattern_detector.py lines 12–134). -/
def analyze_investor_pattern (investor_df : Option (List InvestorRow))
    (price_df : Option (List ℚ)) (days : ℕ) : PatternResult :=
  match investor_df with
  | none =>
    ⟨none, none, none, none, none, "불명확", 0,
      "외국인/기관 매매 데이터를 가져올 수 없습니다. 네이버 증권 페이지에서 수급 데이터를 확인하세요.",
      none, false⟩
  | some rows =>
    if rows.length = 0 then
      ⟨none, none, none, none, none, "불명확", 0,
        "외국인/기관 매매 데이터를 가져올 수 없습니다. 네이버 증권 페이지에서 수급 데이터를 확인하세요.",
        none, false⟩
    else
      let recent := rows.drop (rows.length - days)
      let foreign_avg := meanQ (recent.map (·.foreign_net))
      let institution_avg := meanQ (recent.map (·.institution_net))
      let foreign_trend := trendOf foreign_avg
      let institution_trend := trendOf institution_avg
      let volume_trend := volumeTrendOf recent
      let price_trend := priceTrendOf price_df
      let d := patternDecision foreign_trend institution_trend volume_trend
        price_trend
      ⟨some foreign_trend, some institution_trend, some foreign_avg,
        some institution_avg, some volume_trend, d.1, d.2.1, d.2.2,
        price_trend, true⟩

/-- `calculate_pattern_strength` (pattern_detector.py lines 197–238). -/
def calculate_pattern_strength (investor_df : Option (List InvestorRow))
    (price_df : Option (List ℚ)) : ℤ :=
  match investor_df with
  | none => 0
  | some rows =>
    if rows.length = 0 then 0
    else
      let recent := rows.drop (rows.length - 5)
      let foreign_consistent :=
        (recent.filter (fun r => r.foreign_net > 0)).length ≥ 3
      let institution_consistent :=
        (recent.filter (fun r => r.institution_net > 0)).length ≥ 3
      let s1 : ℤ := 50 +
        (if foreign_consistent ∧ institution_consistent then 20
         else if ¬foreign_consistent ∧ ¬institution_consistent then -20
         else 0)
      let s2 : ℤ := s1 +
        (if recent.length ≥ 2 then
          match recent.getLast?, recent.dropLast.getLast? with
          | some last, some prev =>
            if prev.volume = 0 then
              (if last.volume > 0 then 10
               else if last.volume < 0 then -10 else 0)
            else
              let volume_ratio := last.volume / prev.volume
              if volume_ratio > 12/10 then 10
              else if volume_ratio < 8/10 then -10 else 0
          | _, _ => 0
         else 0)
      let s3 : ℤ := s2 +
        (match price_df with
         | none => 0
         | some closes =>
           if closes.length ≥ 20 then
             match closes.getLast?, ((rollingMean 20 closes).getLast?).join with
             | some current_price, some ma20 =>
               if current_price > ma20 * (105/100) then 10
               else if current_price < ma20 * (95/100) then -10 else 0
             | _, _ => 0
           else 0)
      max 0 (min 100 s3)

/-!
### modes/daytrade.py, modes/swing.py, modes/longterm.py

The input dict produced by stock_screener.py is modelled as a record of
optional rationals (`_safe_float` already applied; a missing key is `none`).
Python truthiness of a float (`if price and ma5:`) is `qtruthy`.  Reason
strings carrying `:.1f`-formatted numbers are modelled by an inductive tag
carrying the exact rational (float rendering abstracted); `reason` holds the
ordered list of triggered tags and statuses/recommendations are the literal
source strings.  The `summary` field (= `reason_text` or `status`) and the
`symbol`/`name` passthroughs are pure rendering and are not modelled.
-/

def qtruthy : Option ℚ → Bool
  | none => false
  | some x => decide (x ≠ 0)

structure ModeInput where
  current_price : Option ℚ
  ma5 : Option ℚ
  ma20 : Option ℚ
  ma60 : Option ℚ
  ma120 : Option ℚ
  ma20_slope : Option ℚ
  ma60_slope : Option ℚ
  rsi : Option ℚ
  volume_ratio : Option ℚ
  macd : Option ℚ
  macd_signal : Option ℚ
  pe : Option ℚ
  roe : Option ℚ
  eps : Option ℚ

inductive ReasonTag where
  | nearMA5 : ReasonTag
  | volumeTimes : ℚ → ReasonTag
  | rsiAt : ℚ → ReasonTag
  | rsiOverheat : ReasonTag
  | belowMA5 : ReasonTag
  | nearMA20 : ReasonTag
  | slopeMA20Up : ReasonTag
  | macdGolden : ReasonTag
  | belowMA20 : ReasonTag
  | trendAboveMA60 : ReasonTag
  | fundPER : ℚ → ReasonTag
  | fundROE : ℚ → ReasonTag
  | fundEPS : ℚ → ReasonTag
  | belowMA60 : ReasonTag
  | epsNegative : ReasonTag
  | roeLow : ReasonTag
deriving DecidableEq

structure ModeResult where
  mode : String
  entry_signal : Bool
  exit_signal : Bool
  status : String
  reason : List ReasonTag
  stop_loss_pct : ℚ
  stop_loss_price : Option ℚ
  recommendation : String

namespace Daytrade

/-- `STOP_LOSS_PCT = 2.0` (modes/daytrade.py line 11). -/
def STOP_LOSS_PCT : ℚ := 2

/-- `near_ma5` (price truthy, ma5 truthy, relative distance at most 1.2%). -/
def near_ma5 (d : ModeInput) : Bool :=
  match d.current_price, d.ma5 with
  | some p, some m =>
    decide (p ≠ 0) && decide (m ≠ 0) && decide (|p - m| / m ≤ 12/1000)
  | _, _ => false

/-- `vol_ok`: `volume_ratio is not None and volume_ratio >= 2.0`. -/
def vol_ok (d : ModeInput) : Bool :=
  match d.volume_ratio with
  | some v => decide (v ≥ 2)
  | none => false

/-- `rsi_ok`: `rsi is not None and 35 <= rsi <= 45`. -/
def rsi_ok (d : ModeInput) : Bool :=
  match d.rsi with
  | some r => decide (35 ≤ r ∧ r ≤ 45)
  | none => false

/-- First exit condition: `rsi is not None and rsi >= 70`. -/
def rsi_hot (d : ModeInput) : Bool :=
  match d.rsi with
  | some r => decide (r ≥ 70)
  | none => false

/-- Second exit condition: `price and ma5 and price < ma5`. -/
def below_ma5 (d : ModeInput) : Bool :=
  match d.current_price, d.ma5 with
  | some p, some m => decide (p ≠ 0) && decide (m ≠ 0) && decide (p < m)
  | _, _ => false

/-- `analyze` (modes/daytrade.py lines 28–93). -/
def analyze (d : ModeInput) : ModeResult :=
  let reasons : List ReasonTag :=
    (if near_ma5 d then [ReasonTag.nearMA5] else []) ++
    (if vol_ok d then [ReasonTag.volumeTimes (d.volume_ratio.getD 0)] else []) ++
    (if rsi_ok d then [ReasonTag.rsiAt (d.rsi.getD 0)] else [])
  let entry_signal := near_ma5 d && vol_ok d && rsi_ok d
  let exit_signal := rsi_hot d || below_ma5 d
  let exit_reasons : List ReasonTag :=
    (if rsi_hot d then [ReasonTag.rsiOverheat] else []) ++
    (if below_ma5 d then [ReasonTag.belowMA5] else [])
  let stop_loss_price :=
    if qtruthy d.current_price then
      some (d.current_price.getD 0 * (1 - STOP_LOSS_PCT / 100))
    else none
  let branch : String × List ReasonTag × String :=
    if exit_signal && !exit_reasons.isEmpty then
      ("단타 매도 타이밍 임박", exit_reasons, "익절 또는 일부 청산 권장")
    else if entry_signal && !reasons.isEmpty then
      ("단타 매수 후보", reasons, "눌림 직후 단기 반등 노리기")
    else
      ("단타 관망 구간",
        (if !exit_reasons.isEmpty then exit_reasons else reasons), "명확한 신호 대기")
  ⟨"daytrade", entry_signal, exit_signal, branch.1, branch.2.1,
    STOP_LOSS_PCT, stop_loss_price, branch.2.2⟩

end Daytrade

namespace Swing

/-- `STOP_LOSS_PCT = 4.0` (modes/swing.py line 10). -/
def STOP_LOSS_PCT : ℚ := 4

/-- `near_ma20`: relative distance to MA20 at most 2%. -/
def near_ma20 (d : ModeInput) : Bool :=
  match d.current_price, d.ma20 with
  | some p, some m =>
    decide (p ≠ 0) && decide (m ≠ 0) && decide (|p - m| / m ≤ 2/100)
  | _, _ => false

/-- `slope_positive`: `ma20_slope is not None and ma20_slope > 0`. -/
def slope_positive (d : ModeInput) : Bool :=
  match d.ma20_slope with
  | some s => decide (s > 0)
  | none => false

/-- `macd_bullish`: both present and `macd > macd_signal`. -/
def macd_bullish (d : ModeInput) : Bool :=
  match d.macd, d.macd_signal with
  | some a, some b => decide (a > b)
  | _, _ => false

/-- `rsi_ok`: `40 <= rsi <= 50`. -/
def rsi_ok (d : ModeInput) : Bool :=
  match d.rsi with
  | some r => decide (40 ≤ r ∧ r ≤ 50)
  | none => false

/-- `volume_ok`: `volume_ratio >= 1.2` (reasons only, not gating entry). -/
def volume_ok (d : ModeInput) : Bool :=
  match d.volume_ratio with
  | some v => decide (v ≥ 12/10)
  | none => false

/-- First exit condition: `rsi >= 70`. -/
def rsi_hot (d : ModeInput) : Bool :=
  match d.rsi with
  | some r => decide (r ≥ 70)
  | none => false

/-- Second exit condition: `price and ma20 and price < ma20`. -/
def below_ma20 (d : ModeInput) : Bool :=
  match d.current_price, d.ma20 with
  | some p, some m => decide (p ≠ 0) && decide (m ≠ 0) && decide (p < m)
  | _, _ => false

/-- `analyze` (modes/swing.py lines 27–104). -/
def analyze (d : ModeInput) : ModeResult :=
  let reasons : List ReasonTag :=
    (if near_ma20 d then [ReasonTag.nearMA20] else []) ++
    (if slope_positive d then [ReasonTag.slopeMA20Up] else []) ++
    (if macd_bullish d then [ReasonTag.macdGolden] else []) ++
    (if rsi_ok d then [ReasonTag.rsiAt (d.rsi.getD 0)] else []) ++
    (if volume_ok d then [ReasonTag.volumeTimes (d.volume_ratio.getD 0)] else [])
  let entry_signal := near_ma20 d && slope_positive d && macd_bullish d && rsi_ok d
  let exit_signal := rsi_hot d || below_ma20 d
  let exit_reasons : List ReasonTag :=
    (if rsi_hot d then [ReasonTag.rsiOverheat] else []) ++
    (if below_ma20 d then [ReasonTag.belowMA20] else [])
  let stop_loss_price :=
    if qtruthy d.current_price then
      some (d.current_price.getD 0 * (1 - STOP_LOSS_PCT / 100))
    else none
  let branch : String × List ReasonTag × String :=
    if exit_signal && !exit_reasons.isEmpty then
      ("스윙 청산 신호 감지", exit_reasons, "익절 또는 비중 축소 검토")
    else if entry_signal && !reasons.isEmpty then
      ("스윙 진입 유효", reasons, "MA20 지지 확인 후 분할 매수 대응")
    else
      ("추세 지속 중, 보유 권장",
        (if !exit_reasons.isEmpty then exit_reasons else reasons),
        "추세 유지 시 보유, 추가 눌림 시 분할 매수 고려")
  ⟨"swing", entry_signal, exit_signal, branch.1, branch.2.1,
    STOP_LOSS_PCT, stop_loss_price, branch.2.2⟩

end Swing

namespace Longterm

/-- `STOP_LOSS_PCT = 10.0` (modes/longterm.py line 10). -/
def STOP_LOSS_PCT : ℚ := 10

/-- `trend_ok`: `price >= ma60 and (ma60_slope is None or ma60_slope >= 0)`
under truthiness of price and ma60. -/
def trend_ok (d : ModeInput) : Bool :=
  match d.current_price, d.ma60 with
  | some p, some m =>
    decide (p ≠ 0) && decide (m ≠ 0) &&
      (decide (p ≥ m) &&
        (match d.ma60_slope with
         | none => true
         | some s => decide (s ≥ 0)))
  | _, _ => false

/-- The fundamentals reason list (PER ∈ (0,15), ROE > 8, EPS > 0). -/
def fundamentals_reasons (d : ModeInput) : List ReasonTag :=
  (match d.pe with
   | some v => if v > 0 ∧ v < 15 then [ReasonTag.fundPER v] else []
   | none => []) ++
  (match d.roe with
   | some v => if v > 8 then [ReasonTag.fundROE v] else []
   | none => []) ++
  (match d.eps with
   | some v => if v > 0 then [ReasonTag.fundEPS v] else []
   | none => [])

/-- First exit condition: `price and ma60 and price < ma60 * 0.97`. -/
def below_ma60 (d : ModeInput) : Bool :=
  match d.current_price, d.ma60 with
  | some p, some m =>
    decide (p ≠ 0) && decide (m ≠ 0) && decide (p < m * (97/100))
  | _, _ => false

/-- Second exit condition: `eps is not None and eps <= 0`. -/
def eps_neg (d : ModeInput) : Bool :=
  match d.eps with
  | some v => decide (v ≤ 0)
  | none => false

/-- Third exit condition: `roe is not None and roe < 5`. -/
def roe_low (d : ModeInput) : Bool :=
  match d.roe with
  | some v => decide (v < 5)
  | none => false

/-- `analyze` (modes/longterm.py lines 27–105).  The fundamentals sub-list
is appended element-wise (the source joins it into one string; only its
non-emptiness feeds control flow). -/
def analyze (d : ModeInput) : ModeResult :=
  let fundamentals_ok : Bool := decide ((fundamentals_reasons d).length ≥ 2)
  let reasons : List ReasonTag :=
    (if trend_ok d then [ReasonTag.trendAboveMA60] else []) ++
    (if !(fundamentals_reasons d).isEmpty then fundamentals_reasons d else [])
  let entry_signal := trend_ok d && fundamentals_ok
  let exit_signal := below_ma60 d || eps_neg d || roe_low d
  let exit_reasons : List ReasonTag :=
    (if below_ma60 d then [ReasonTag.belowMA60] else []) ++
    (if eps_neg d then [ReasonTag.epsNegative] else []) ++
    (if roe_low d then [ReasonTag.roeLow] else [])
  let stop_loss_price :=
    if qtruthy d.current_price then
      some (d.current_price.getD 0 * (1 - STOP_LOSS_PCT / 100))
    else none
  let branch : String × List ReasonTag × String :=
    if exit_signal && !exit_reasons.isEmpty then
      ("가치 경고 신호", exit_reasons, "재무 및 추세 재점검 필요")
    else if entry_signal && !reasons.isEmpty then
      ("저평가 구간", reasons, "장기 분할매수 적합")
    else
      ("가치 중립",
        (if !exit_reasons.isEmpty then exit_reasons else reasons),
        "기존 보유 유지, 추가 지표 모니터링")
  ⟨"longterm", entry_signal, exit_signal, branch.1, branch.2.1,
    STOP_LOSS_PCT, stop_loss_price, branch.2.2⟩

end Longterm

/-!
### signal_watcher.py — AlertState.should_notify (lines 312–344)

The persisted alert state `{symbol: {alert_type: {timestamp: str, ...}}}` is
modelled as nested association lists; `datetime` values as rational seconds
(`.date()` is the floored day number); `parse_timestamp`
(`datetime.fromisoformat` wrapped in try/except → `None`) is an abstract
parameter `parse : String → Option ℚ`.
-/

def AlertInfo : Type := List (String × String)

def AlertStateMap : Type := List (String × List (String × AlertInfo))

/-- `datetime.date()` of a timestamp in seconds: the day number. -/
def dateOf (t : ℚ) : ℤ := ⌊t / 86400⌋

/-- The `sent_at` computed inside `should_notify`:
`parse_timestamp(timestamp_str) if timestamp_str else None`. -/
def sentAtOf (parse : String → Option ℚ) (alert_info : AlertInfo) : Option ℚ :=
  match dictGet "timestamp" alert_info with
  | none => none
  | some s => if s = "" then none else parse s

/-- `AlertState.should_notify`.  `cooldown_minutes` is the constructor
argument (`self.cooldown = timedelta(minutes=cooldown_minutes)`); `now` is
`datetime.utcnow()` in seconds. -/
def should_notify (state : AlertStateMap) (code alert_type : String)
    (cooldown_minutes : ℤ) (cooldown_seconds : Option ℤ)
    (once_per_day : Bool) (parse : String → Option ℚ) (now : ℚ) : Bool :=
  let code_state := (dictGet code state).getD []
  match dictGet alert_type code_state with
  | none => true
  | some alert_info =>
    if alert_info.isEmpty then true
    else
      match sentAtOf parse alert_info with
      | none => true
      | some sent_at =>
        if once_per_day then
          if dateOf sent_at = dateOf now then false else true
        else
          let cooldown : ℚ :=
            match cooldown_seconds with
            | some cs => if cs > 0 then (cs : ℚ) else (cooldown_minutes : ℚ) * 60
            | none => (cooldown_minutes : ℚ) * 60
          if now - sent_at ≥ cooldown then true else false

/-!
## Claim theorems
-/

/-- Input exhibiting the buy-price clamp bug: nineteen 200-closes followed by
a 100-close, so MA5 = 180 and MA20 = 195 sit far above the current price. -/
def closesC1 : List ℚ := List.replicate 19 200 ++ [100]

/-- C1: the spec requires every buy price returned by `generate_buy_signals`
for a non-breakdown pattern to be at most `current_price`; the code violates
this.  With the shakeout pattern and current price 100, the returned first
buy price is 178 and the second 192, both above the current price. -/
theorem C1_buy_signal_price_exceeds_current :
    ((generate_buy_signals (some closesC1) (some "물량_털기") 100).bind
        (·.buy_1)).map (·.price) = some 178 ∧
    ((generate_buy_signals (some closesC1) (some "물량_털기") 100).bind
        (·.buy_2)).map (·.price) = some 192 ∧
    (100 : ℤ) < 178 ∧ (100 : ℤ) < 192 :=
  ⟨by with_unfolding_all rfl, by with_unfolding_all rfl, by decide, by decide⟩

/-- The stop-loss rule the code actually implements: MA20 × 0.97 for the
shakeout and uptrend patterns, buy × 0.95 for the breakdown pattern, and
min(MA20 × 0.97, buy × 0.97) only for the unclear pattern. -/
def stopLossAmended (ma20 buy : ℚ) (pt : String) : ℚ :=
  if pt = "물량_털기" ∨ pt = "상승_신호" then ma20 * (97/100)
  else if pt = "진짜_이탈" then buy * (95/100)
  else min (ma20 * (97/100)) (buy * (97/100))

/-- C2 counterexample: with twenty 200-closes (MA20 = 200), buy price 100 and
pattern '물량_털기', `calculate_stop_loss` returns 194 = round(MA20 × 0.97),
not the claimed min(MA20 × 0.97, buy × 0.97) = 97. -/
theorem C2_stop_loss_counterexample :
    (calculate_stop_loss (some (List.replicate 20 (200:ℚ))) 100
        (some "물량_털기")).map (·.stop_loss) = some 194 ∧
    (calculate_stop_loss (some (List.replicate 20 (200:ℚ))) 100
        (some "물량_털기")).map (·.stop_loss)
      ≠ some (pyRound (min ((200:ℚ) * (97/100)) ((100:ℚ) * (97/100)))) := by
  have h1 : (calculate_stop_loss (some (List.replicate 20 (200:ℚ))) 100
      (some "물량_털기")).map (·.stop_loss) = some 194 := by
    with_unfolding_all rfl
  have h2 : pyRound (min ((200:ℚ) * (97/100)) ((100:ℚ) * (97/100))) = 97 := by
    with_unfolding_all rfl
  refine ⟨h1, ?_⟩
  rw [h1, h2]
  decide

/-- C2 (amended): for every non-empty price series, `calculate_stop_loss`
returns the rounded `stopLossAmended` value — MA20 × 0.97 for shakeout and
uptrend patterns, buy × 0.95 for the breakdown pattern, and
min(MA20 × 0.97, buy × 0.97) for the unclear pattern — with MA20 falling
back to the buy price when undefined. -/
theorem C2_stop_loss_formula (closes : List ℚ) (buy : ℚ) (pt : Option String)
    (h : closes ≠ []) :
    (calculate_stop_loss (some closes) buy pt).map (·.stop_loss)
      = some (pyRound (stopLossAmended (lastMA 20 closes buy) buy
          (pt.getD "불명확"))) := by
  have hlen : ¬ closes.length = 0 := by simpa using h
  simp [calculate_stop_loss, stopLossAmended, hlen]

/-- C2 witness: the amended stop-loss formula evaluated on a one-bar series
with the breakdown pattern. -/
theorem C2_stop_loss_formula_witness :
    (calculate_stop_loss (some [(100:ℚ)]) 100 (some "진짜_이탈")).map
        (·.stop_loss)
      = some (pyRound (stopLossAmended (lastMA 20 [(100:ℚ)] 100) 100
          ((some "진짜_이탈").getD "불명확"))) :=
  C2_stop_loss_formula [(100:ℚ)] 100 (some "진짜_이탈") (by decide)

theorem daytrade_exit_status (d : ModeInput)
    (h : (Daytrade.analyze d).exit_signal = true) :
    (Daytrade.analyze d).status = "단타 매도 타이밍 임박" := by
  have hb : (Daytrade.rsi_hot d || Daytrade.below_ma5 d) = true := h
  cases h1 : Daytrade.rsi_hot d <;> cases h2 : Daytrade.below_ma5 d <;>
    rw [h1, h2] at hb <;> simp at hb <;>
    simp [Daytrade.analyze, h1, h2]

theorem swing_exit_status (d : ModeInput)
    (h : (Swing.analyze d).exit_signal = true) :
    (Swing.analyze d).status = "스윙 청산 신호 감지" := by
  have hb : (Swing.rsi_hot d || Swing.below_ma20 d) = true := h
  cases h1 : Swing.rsi_hot d <;> cases h2 : Swing.below_ma20 d <;>
    rw [h1, h2] at hb <;> simp at hb <;>
    simp [Swing.analyze, h1, h2]

theorem longterm_exit_status (d : ModeInput)
    (h : (Longterm.analyze d).exit_signal = true) :
    (Longterm.analyze d).status = "가치 경고 신호" := by
  have hb : (Longterm.below_ma60 d || Longterm.eps_neg d || Longterm.roe_low d)
      = true := h
  cases h1 : Longterm.below_ma60 d <;> cases h2 : Longterm.eps_neg d <;>
    cases h3 : Longterm.roe_low d <;>
    rw [h1, h2, h3] at hb <;> simp at hb <;>
    simp [Longterm.analyze, h1, h2, h3]

/-- C3: in all three classifier modes, whenever the entry and exit conditions
both evaluate true the returned status is the exit/warning state and never
the entry-ready state. -/
theorem C3_exit_takes_precedence (d s l : ModeInput) :
    ((Daytrade.analyze d).entry_signal = true →
      (Daytrade.analyze d).exit_signal = true →
      (Daytrade.analyze d).status = "단타 매도 타이밍 임박" ∧
      (Daytrade.analyze d).status ≠ "단타 매수 후보") ∧
    ((Swing.analyze s).entry_signal = true →
      (Swing.analyze s).exit_signal = true →
      (Swing.analyze s).status = "스윙 청산 신호 감지" ∧
      (Swing.analyze s).status ≠ "스윙 진입 유효") ∧
    ((Longterm.analyze l).entry_signal = true →
      (Longterm.analyze l).exit_signal = true →
      (Longterm.analyze l).status = "가치 경고 신호" ∧
      (Longterm.analyze l).status ≠ "저평가 구간") := by
  refine ⟨fun _ hx => ⟨daytrade_exit_status d hx, ?_⟩,
    fun _ hx => ⟨swing_exit_status s hx, ?_⟩,
    fun _ hx => ⟨longterm_exit_status l hx, ?_⟩⟩
  · rw [daytrade_exit_status d hx]; decide
  · rw [swing_exit_status s hx]; decide
  · rw [longterm_exit_status l hx]; decide

/-- An input on which all three modes fire both their entry and their exit
conditions simultaneously (price 99 just below MA5 = MA20 = 100, above
MA60 = 90, RSI 40, volume ratio 3, MACD above signal, PER 10, ROE 20,
EPS −1). -/
def modeInputC3 : ModeInput :=
  ⟨some 99, some 100, some 100, some 90, none, some 1, none, some 40, some 3,
   some 2, some 1, some 10, some 20, some (-1)⟩

/-- C3 witness: on `modeInputC3` each mode reports its exit status. -/
theorem C3_exit_takes_precedence_witness :
    (Daytrade.analyze modeInputC3).status = "단타 매도 타이밍 임박" ∧
    (Swing.analyze modeInputC3).status = "스윙 청산 신호 감지" ∧
    (Longterm.analyze modeInputC3).status = "가치 경고 신호" := by
  obtain ⟨h1, h2, h3⟩ :=
    C3_exit_takes_precedence modeInputC3 modeInputC3 modeInputC3
  exact ⟨(h1 (by with_unfolding_all rfl) (by with_unfolding_all rfl)).1,
    (h2 (by with_unfolding_all rfl) (by with_unfolding_all rfl)).1,
    (h3 (by with_unfolding_all rfl) (by with_unfolding_all rfl)).1⟩

theorem zip_replicate_succ {α β : Type} (a : α) (b : β) :
    ∀ n, (List.replicate (n+1) a).zip (List.replicate n b)
      = List.replicate n (a, b) := by
  intro n
  induction n with
  | zero => rfl
  | succ k ih =>
    show ((a :: List.replicate (k+1) a).zip (b :: List.replicate k b)) = _
    simp only [List.zip_cons_cons]
    rw [show (List.replicate (k+1) a).zip (List.replicate k b)
        = List.replicate k (a, b) from ih]
    rfl

theorem ewmAux_zero (a : ℚ) : ∀ n, ewmAux a 0 (List.replicate n 0)
    = List.replicate n 0 := by
  intro n
  induction n with
  | zero => rfl
  | succ k ih =>
    show ewmAux a 0 (0 :: List.replicate k 0) = _
    simp only [ewmAux]
    rw [show (1 - a) * 0 + a * 0 = 0 by ring]
    rw [ih]
    rfl

theorem ewm_zero (a : ℚ) : ∀ n, ewm a (List.replicate n 0)
    = List.replicate n 0 := by
  intro n
  cases n with
  | zero => rfl
  | succ k =>
    show ewm a (0 :: List.replicate k 0) = _
    simp only [ewm]
    rw [ewmAux_zero]
    rfl

theorem zipWith_sub_replicate_zero (n : ℕ) :
    List.zipWith (fun a b => a - b) (List.replicate n (0:ℚ))
      (List.replicate n (0:ℚ)) = List.replicate n 0 := by
  induction n with
  | zero => rfl
  | succ k ih =>
    show List.zipWith _ (0 :: List.replicate k (0:ℚ)) (0 :: _) = _
    simp only [List.zipWith_cons_cons]
    rw [ih, sub_zero]
    rfl

theorem pctChanges_const (n : ℕ) (c : ℚ) :
    pctChanges (List.replicate n c) = List.replicate n 0 := by
  cases n with
  | zero => rfl
  | succ k =>
    have h1 : List.replicate (k+1) c = c :: List.replicate k c :=
      List.replicate_succ c k
    rw [h1]
    simp only [pctChanges, List.tail_cons]
    rw [← h1, zip_replicate_succ c c k, List.map_replicate]
    rw [show (c - c) / c * 100 = 0 by ring]
    rfl

theorem diffs_const (n : ℕ) (c : ℚ) :
    diffs (List.replicate (n+1) c) = none :: List.replicate n (some 0) := by
  have h1 : List.replicate (n+1) c = c :: List.replicate n c :=
    List.replicate_succ c n
  rw [h1]
  simp only [diffs, List.tail_cons]
  rw [← h1, zip_replicate_succ c c n, List.map_replicate]
  rw [show c - c = 0 by ring]

theorem gains_const (n : ℕ) (c : ℚ) :
    gainsOf (List.replicate n c) = List.replicate n 0 := by
  cases n with
  | zero => rfl
  | succ k =>
    simp only [gainsOf, diffs_const, List.map_cons, List.map_replicate]
    norm_num
    rw [List.replicate_succ]

theorem losses_const (n : ℕ) (c : ℚ) :
    lossesOf (List.replicate n c) = List.replicate n 0 := by
  cases n with
  | zero => rfl
  | succ k =>
    simp only [lossesOf, diffs_const, List.map_cons, List.map_replicate]
    norm_num
    rw [List.replicate_succ]

theorem zipWith_rsiPoint_zero (n : ℕ) :
    List.zipWith rsiPoint (List.replicate n (0:ℚ)) (List.replicate n (0:ℚ))
      = List.replicate n none := by
  induction n with
  | zero => rfl
  | succ k ih =>
    show List.zipWith rsiPoint (0 :: _) (0 :: _) = _
    simp only [List.zipWith_cons_cons]
    rw [ih]
    rw [show rsiPoint 0 0 = none by simp [rsiPoint]]
    rfl

/-- C4 (amended): on a constant close series of any length the engine's MACD,
Signal and Histogram are exactly 0 at every bar, while the RSI cell is NaN
(`none`) at every bar — `avg_gain = avg_loss = 0` makes `rs = 0/0` NaN — so
RSI does not converge to 50. -/
theorem C4_constant_series_indicators (n : ℕ) (c : ℚ) :
    macdLine (List.replicate n c) = List.replicate n 0 ∧
    macdSignalLine (List.replicate n c) = List.replicate n 0 ∧
    macdHistogram (List.replicate n c) = List.replicate n 0 ∧
    rsiSeries (List.replicate n c) = List.replicate n none := by
  have hmacd : macdLine (List.replicate n c) = List.replicate n 0 := by
    unfold macdLine
    rw [pctChanges_const, ewm_zero, ewm_zero, zipWith_sub_replicate_zero]
  have hsig : macdSignalLine (List.replicate n c) = List.replicate n 0 := by
    unfold macdSignalLine
    rw [hmacd, ewm_zero]
  refine ⟨hmacd, hsig, ?_, ?_⟩
  · unfold macdHistogram
    rw [hmacd, hsig, zipWith_sub_replicate_zero]
  · unfold rsiSeries
    rw [gains_const, losses_const, ewm_zero]
    exact zipWith_rsiPoint_zero n

/-- C4 counterexample: on a 20-bar constant series at close 100 the computed
RSI is NaN (`none`) on every bar, so the value 50 never appears: RSI does not
converge to 50. -/
theorem C4_constant_series_counterexample :
    rsiSeries (List.replicate 20 (100:ℚ)) = List.replicate 20 none ∧
    some (50:ℚ) ∉ rsiSeries (List.replicate 20 (100:ℚ)) := by
  have h := (C4_constant_series_indicators 20 100).2.2.2
  refine ⟨h, ?_⟩
  rw [h]
  decide

/-- C5: for every window `w ≥ 1` and every close series, the rolling mean has
one cell per bar, is `none` for the first `w − 1` bars, and from bar `w`
onward equals the naive arithmetic mean of exactly the trailing `w` closes. -/
theorem C5_moving_average_window (w : ℕ) (xs : List ℚ) (hw : 1 ≤ w) :
    (rollingMean w xs).length = xs.length ∧
    ∀ i, i < xs.length → (rollingMean w xs).get? i = some (naiveMA w xs i) :=
  ⟨rollingMeanAux_length w xs [], fun i hi => rollingMean_get? w hw xs i hi⟩

/-- C5 witness: window 2 over a three-bar series, checked at the last bar. -/
theorem C5_moving_average_window_witness :
    (rollingMean 2 [(1:ℚ), 2, 3]).length = ([(1:ℚ), 2, 3]).length ∧
    (rollingMean 2 [(1:ℚ), 2, 3]).get? 2 = some (naiveMA 2 [(1:ℚ), 2, 3] 2) :=
  ⟨(C5_moving_average_window 2 [(1:ℚ), 2, 3] (by decide)).1,
   (C5_moving_average_window 2 [(1:ℚ), 2, 3] (by decide)).2 2 (by decide)⟩

/-- C6: for a daytrade input with positive price, MA5, RSI and volume ratio
all present, the entry signal fires iff the price is within 1.2% of MA5, the
volume ratio is at least 2 and RSI lies in [35, 45]; the exit signal fires
iff RSI ≥ 70 or the price is below MA5; and the stop-loss price is 2% below
the current price. -/
theorem C6_daytrade_classifier (d : ModeInput) (p m r v : ℚ)
    (hp : d.current_price = some p) (hp0 : 0 < p)
    (hm : d.ma5 = some m) (hm0 : 0 < m)
    (hr : d.rsi = some r) (hr0 : 0 < r)
    (hv : d.volume_ratio = some v) (hv0 : 0 < v) :
    ((Daytrade.analyze d).entry_signal = true ↔
      (|p - m| ≤ (12/1000) * m ∧ 2 ≤ v ∧ 35 ≤ r ∧ r ≤ 45)) ∧
    ((Daytrade.analyze d).exit_signal = true ↔ (70 ≤ r ∨ p < m)) ∧
    (Daytrade.analyze d).stop_loss_price = some (p * (98/100)) := by
  have e1 : (Daytrade.analyze d).entry_signal
      = (Daytrade.near_ma5 d && Daytrade.vol_ok d && Daytrade.rsi_ok d) := rfl
  have e2 : (Daytrade.analyze d).exit_signal
      = (Daytrade.rsi_hot d || Daytrade.below_ma5 d) := rfl
  have e3 : (Daytrade.analyze d).stop_loss_price
      = (if qtruthy d.current_price then
          some (d.current_price.getD 0 * (1 - Daytrade.STOP_LOSS_PCT / 100))
        else none) := rfl
  have hnear : Daytrade.near_ma5 d = decide (|p - m| ≤ 12/1000 * m) := by
    simp only [Daytrade.near_ma5, hp, hm]
    rw [show decide (p ≠ 0) = true by simp [hp0.ne'],
      show decide (m ≠ 0) = true by simp [hm0.ne']]
    simp only [Bool.true_and]
    rw [decide_eq_decide]
    exact div_le_iff₀ hm0
  refine ⟨?_, ?_, ?_⟩
  · rw [e1, hnear]
    simp only [Daytrade.vol_ok, Daytrade.rsi_ok, hr, hv]
    simp [Bool.and_eq_true, decide_eq_true_eq, and_assoc, ge_iff_le]
  · rw [e2]
    simp only [Daytrade.rsi_hot, Daytrade.below_ma5, hp, hm, hr]
    rw [show decide (p ≠ 0) = true by simp [hp0.ne'],
      show decide (m ≠ 0) = true by simp [hm0.ne']]
    simp [Bool.or_eq_true, decide_eq_true_eq, ge_iff_le]
  · rw [e3]
    rw [show qtruthy d.current_price = true by simp [qtruthy, hp, hp0.ne']]
    simp only [if_pos]
    rw [hp]
    norm_num [Daytrade.STOP_LOSS_PCT]

/-- A daytrade input with price 100 on MA5 = 100, RSI 40, volume ratio 3:
entry conditions hold, exit conditions do not. -/
def modeInputC6 : ModeInput :=
  ⟨some 100, some 100, none, none, none, none, none, some 40, some 3,
   none, none, none, none, none⟩

/-- C6 witness: the classifier conditions instantiated on `modeInputC6`. -/
theorem C6_daytrade_classifier_witness :
    (((Daytrade.analyze modeInputC6).entry_signal = true ↔
      (|(100:ℚ) - 100| ≤ (12/1000) * 100 ∧ (2:ℚ) ≤ 3 ∧ (35:ℚ) ≤ 40 ∧
        (40:ℚ) ≤ 45)) ∧
    ((Daytrade.analyze modeInputC6).exit_signal = true ↔
      ((70:ℚ) ≤ 40 ∨ (100:ℚ) < 100)) ∧
    (Daytrade.analyze modeInputC6).stop_loss_price
      = some ((100:ℚ) * (98/100))) :=
  C6_daytrade_classifier modeInputC6 100 100 40 3 rfl (by decide) rfl
    (by decide) rfl (by decide) rfl (by decide)

/-- C7: if the last five investor rows average foreign net-selling and
institution net-buying, the last volume bar changes by at most ±10%, and the
latest close sits above MA20, `analyze_investor_pattern` labels the series
'물량_털기' with confidence 75. -/
theorem C7_shakeout_pattern (rows : List InvestorRow) (closes : List ℚ)
    (lastRow prevRow : InvestorRow) (c m : ℚ)
    (hlen : 5 ≤ rows.length)
    (hf : meanQ ((rows.drop (rows.length - 5)).map (·.foreign_net)) < 0)
    (hi : 0 < meanQ ((rows.drop (rows.length - 5)).map (·.institution_net)))
    (hlast : (rows.drop (rows.length - 5)).getLast? = some lastRow)
    (hprev : (rows.drop (rows.length - 5)).dropLast.getLast? = some prevRow)
    (hv1 : 0 < prevRow.volume)
    (hflat : |(lastRow.volume - prevRow.volume) / prevRow.volume * 100| ≤ 10)
    (hplen : 20 ≤ closes.length)
    (hc : closes.getLast? = some c)
    (hm : ((rollingMean 20 closes).getLast?).join = some m)
    (hcm : m < c) :
    (analyze_investor_pattern (some rows) (some closes) 5).pattern_type
      = "물량_털기" ∧
    (analyze_investor_pattern (some rows) (some closes) 5).confidence = 75 := by
  have hne : ¬ rows.length = 0 := by omega
  have hft : trendOf (meanQ ((rows.drop (rows.length - 5)).map
      (·.foreign_net))) = "매도" := by
    unfold trendOf
    rw [if_neg (by linarith), if_pos hf]
  have hit : trendOf (meanQ ((rows.drop (rows.length - 5)).map
      (·.institution_net))) = "매수" := by
    unfold trendOf
    rw [if_pos hi]
  have hvt : volumeTrendOf (rows.drop (rows.length - 5)) = "유지" := by
    unfold volumeTrendOf
    have hrl : (rows.drop (rows.length - 5)).length = 5 := by
      rw [List.length_drop]; omega
    rw [if_pos (by omega : (rows.drop (rows.length - 5)).length ≥ 2)]
    rw [hlast, hprev]
    dsimp only
    rw [if_neg (by exact (ne_of_gt hv1))]
    have habs := abs_le.mp hflat
    rw [if_neg (by linarith [habs.2]), if_neg (by linarith [habs.1])]
  have hpt : priceTrendOf (some closes) = some "상승" := by
    unfold priceTrendOf
    dsimp only
    rw [if_pos hplen]
    rw [hc, hm]
    dsimp only
    rw [if_pos hcm]
  constructor <;>
  · dsimp only [analyze_investor_pattern]
    rw [if_neg hne]
    dsimp only
    rw [hft, hit, hvt, hpt]
    decide

/-- Five investor rows of foreign −10, institution +10, flat volume 100. -/
def rowsC7 : List InvestorRow := List.replicate 5 ⟨-10, 10, 100⟩

/-- Nineteen closes at 100 and one at 120, so MA20 = 101 < 120. -/
def closesC7 : List ℚ := List.replicate 19 100 ++ [120]

/-- C7 witness: the shakeout label and confidence 75 on concrete data. -/
theorem C7_shakeout_pattern_witness :
    (analyze_investor_pattern (some rowsC7) (some closesC7) 5).pattern_type
      = "물량_털기" ∧
    (analyze_investor_pattern (some rowsC7) (some closesC7) 5).confidence
      = 75 :=
  C7_shakeout_pattern rowsC7 closesC7 ⟨-10, 10, 100⟩ ⟨-10, 10, 100⟩ 120 101
    (by decide)
    (by with_unfolding_all decide)
    (by with_unfolding_all decide)
    (by with_unfolding_all rfl)
    (by with_unfolding_all rfl)
    (by decide)
    (by with_unfolding_all decide)
    (by decide)
    (by with_unfolding_all rfl)
    (by with_unfolding_all rfl)
    (by decide)

/-- C8: the indicator engine is idempotent: applying the moving-average, RSI
and MACD computations to an already-augmented frame reproduces the same
frame, because every indicator is recomputed purely from the unchanged close
column. -/
theorem C8_indicator_engine_idempotent (df : Frame) :
    applyIndicators (applyIndicators df) = applyIndicators df := rfl

/-- C9: `calculate_pattern_strength` always returns a score within [0, 100],
and returns exactly 0 when the investor series is missing or empty. -/
theorem C9_pattern_strength_range (investor_df : Option (List InvestorRow))
    (price_df : Option (List ℚ)) :
    (0 ≤ calculate_pattern_strength investor_df price_df ∧
      calculate_pattern_strength investor_df price_df ≤ 100) ∧
    calculate_pattern_strength none price_df = 0 ∧
    calculate_pattern_strength (some []) price_df = 0 := by
  refine ⟨?_, rfl, rfl⟩
  rcases investor_df with _ | rows
  · constructor <;> simp [calculate_pattern_strength]
  · by_cases h : rows.length = 0
    · constructor <;> simp [calculate_pattern_strength, h]
    · constructor
      · simp only [calculate_pattern_strength, h, if_false]
        exact le_max_left _ _
      · simp only [calculate_pattern_strength, h, if_false]
        exact max_le (by norm_num) (min_le_left _ _)

/-- C10: `should_notify` returns true whenever the (symbol, alert-type) key
has no stored record, or the stored record is empty or carries no parseable
timestamp — regardless of the cooldown, the once-per-day flag or the clock. -/
theorem C10_should_notify_no_valid_record (state : AlertStateMap)
    (code alert_type : String) (cm : ℤ) (cs : Option ℤ) (opd : Bool)
    (parse : String → Option ℚ) (now : ℚ)
    (h : dictGet alert_type ((dictGet code state).getD []) = none ∨
      ∃ info, dictGet alert_type ((dictGet code state).getD []) = some info ∧
        (info.isEmpty = true ∨ sentAtOf parse info = none)) :
    should_notify state code alert_type cm cs opd parse now = true := by
  simp only [should_notify]
  rcases h with h | ⟨info, hinfo, hcase⟩
  · rw [h]
  · rw [hinfo]
    rcases hcase with hc | hc
    · simp [hc]
    · by_cases he : info.isEmpty <;> simp [he, hc]

/-- C10 witness: the very first alert for a key fires on an empty state. -/
theorem C10_should_notify_no_valid_record_witness :
    should_notify [] "005930" "breakout" 30 none false
      (fun _ => none) 0 = true :=
  C10_should_notify_no_valid_record [] "005930" "breakout" 30 none false
    (fun _ => none) 0 (Or.inl rfl)
